import Mathlib

/-!
Shallow embedding of the HeaderVet rule-evaluation engine and grading
algorithm (TypeScript sources under src/), together with theorems that
settle the specification claims.

Header maps are modelled as association lists of lower-cased header
name to value.  JavaScript's `headers[k] ?? null` followed by the
falsiness test `if (!value)` is modelled by `jsGet`, which yields `none`
both when the key is absent and when the value is the empty string.
Fractional intermediate scores (JavaScript doubles holding exact halves)
are modelled with `ℚ`; `Math.round` is `⌊q + 1/2⌋`.  String operations
are implemented on character lists by structural recursion so that
concrete runs reduce inside the kernel.
-/

namespace HeaderVet

/-- Verdict status, from types.ts. -/
inductive Status where
  | pass
  | warn
  | fail
  | missing
deriving DecidableEq, Repr

/-- Severity, from types.ts. -/
inductive Severity where
  | critical
  | high
  | medium
  | low
  | info
deriving DecidableEq, Repr

/-- Letter grade, from types.ts; `Ap` stands for the string grade A+. -/
inductive Grade where
  | Ap
  | A
  | B
  | C
  | D
  | E
  | F
deriving DecidableEq, Repr

/-- Verdict record, from types.ts (scores are integers after rounding). -/
structure HeaderCheck where
  header : String
  status : Status
  severity : Severity
  value : Option String
  message : String
  recommendation : Option String
  detail : Option String := none
  score : Int
  maxScore : Int
deriving DecidableEq, Repr

/-- Lower-cased header-name → value map, as an association list. -/
def Headers := List (String × String)

/-- `headers[k] ?? null` followed by JS falsiness: the empty string is
treated the same as an absent key, exactly as `if (!value)` does. -/
def jsGet (headers : Headers) (k : String) : Option String :=
  match List.lookup k headers with
  | none => none
  | some v => if v = "" then none else some v

/-- ASCII lower-casing of a string, modelling JS `toLowerCase`. -/
def jsToLower (s : String) : String :=
  String.mk (s.toList.map Char.toLower)

/-- ASCII upper-casing of a string, modelling JS `toUpperCase`. -/
def jsToUpper (s : String) : String :=
  String.mk (s.toList.map Char.toUpper)

/-- Whether `sub` occurs as a contiguous run inside `l`. -/
def listIsInfix : List Char → List Char → Bool
  | sub, [] => sub.isEmpty
  | sub, c :: cs => sub.isPrefixOf (c :: cs) || listIsInfix sub cs

/-- JS `s.includes(sub)`: substring containment. -/
def jsIncludes (s sub : String) : Bool :=
  listIsInfix sub.toList s.toList

/-- Case-insensitive substring test, modelling `/lit/i.test(s)` for a
literal pattern. -/
def ciIncludes (s sub : String) : Bool :=
  jsIncludes (jsToLower s) (jsToLower sub)

/-- JS `s.replace(/\s/g, '')`. -/
def removeWs (s : String) : String :=
  String.mk (s.toList.filter (fun c => !c.isWhitespace))

/-- JS `s.startsWith(pre)`. -/
def jsStartsWith (s pre : String) : Bool :=
  pre.toList.isPrefixOf s.toList

/-- Trim of leading and trailing whitespace, modelling JS `trim`. -/
def jsTrim (s : String) : String :=
  String.mk (((s.toList.dropWhile Char.isWhitespace).reverse.dropWhile
    Char.isWhitespace).reverse)

/-- Split on a single separator character, keeping empty segments, as JS
`s.split(sep)` does for one-character separators. -/
def splitCharAux (sep : Char) : List Char → List Char → List String
  | [], cur => [String.mk cur.reverse]
  | c :: cs, cur =>
    if c = sep then String.mk cur.reverse :: splitCharAux sep cs []
    else splitCharAux sep cs (c :: cur)

/-- JS `s.split(sep)` for a one-character separator. -/
def splitChar (sep : Char) (s : String) : List String :=
  splitCharAux sep s.toList []

/-- Whitespace-separated tokens with empties dropped.  `wsTokens part`
equals JS `part.trim().split(/\s+/)` whenever the trimmed part is
non-empty; when it is empty, JS yields `[""]`, whose head fails the
`!tokens[0]` guard in the caller, and `wsTokens` yields `[]`, which the
embedding's caller skips the same way. -/
def wsTokensAux : List Char → List Char → List String
  | [], cur => if cur.isEmpty then [] else [String.mk cur.reverse]
  | c :: cs, cur =>
    if c.isWhitespace then
      if cur.isEmpty then wsTokensAux cs []
      else String.mk cur.reverse :: wsTokensAux cs []
    else wsTokensAux cs (c :: cur)

/-- Whitespace tokenisation of a string (see `wsTokensAux`). -/
def wsTokens (s : String) : List String :=
  wsTokensAux s.toList []

/-- Digits to a number, for regex captures fed to `parseInt(_, 10)`. -/
def digitsToNat (l : List Char) : Nat :=
  l.foldl (fun n c => 10 * n + (c.toNat - 48)) 0

/-- Case-insensitive literal-prefix match; returns the rest of the
input.  The pattern is given lower-cased. -/
def matchCI : List Char → List Char → Option (List Char)
  | [], rest => some rest
  | _ :: _, [] => none
  | p :: ps, c :: cs => if p = c.toLower then matchCI ps cs else none

/-- Scan for the first occurrence of `pat` (case-insensitive, `pat`
given lower-cased) followed by at least one digit; the maximal digit run
there is the capture.  Models `s.match(/pat(\d+)/i)`: the regex engine
moves on past an occurrence of the literal that is not followed by a
digit. -/
def scanNumAfterCI (pat : List Char) : List Char → Option Nat
  | [] => none
  | c :: cs =>
    match matchCI pat (c :: cs) with
    | some rest =>
      let ds := rest.takeWhile Char.isDigit
      if ds.isEmpty then scanNumAfterCI pat cs else some (digitsToNat ds)
    | none => scanNumAfterCI pat cs

/-- JS `Math.round` on an exact rational: `⌊q + 1/2⌋`. -/
def jsRound (q : ℚ) : Int :=
  ⌊q + 1 / 2⌋

/-- `checks.reduce((sum, c) => sum + c.score, 0)` from scoring.ts. -/
def totalScoreOf (checks : List HeaderCheck) : Int :=
  checks.foldl (fun sum c => sum + c.score) 0

/-- `checks.reduce((sum, c) => sum + c.maxScore, 0)` from scoring.ts. -/
def maxScoreOf (checks : List HeaderCheck) : Int :=
  checks.foldl (fun sum c => sum + c.maxScore) 0

/-- Result triple of `calculateGrade`, from scoring.ts. -/
structure GradeResult where
  grade : Grade
  totalScore : Int
  maxScore : Int
deriving DecidableEq, Repr

/-- `calculateGrade` from scoring.ts: percentage of total score over max
score, banded at 95/85/70/55/40/25. -/
def calculateGrade (checks : List HeaderCheck) : GradeResult :=
  let totalScore := totalScoreOf checks
  let maxScore := maxScoreOf checks
  let pct : ℚ := if maxScore > 0 then ((totalScore : ℚ) / (maxScore : ℚ)) * 100 else 0
  let grade : Grade :=
    if pct ≥ 95 then .Ap
    else if pct ≥ 85 then .A
    else if pct ≥ 70 then .B
    else if pct ≥ 55 then .C
    else if pct ≥ 40 then .D
    else if pct ≥ 25 then .E
    else .F
  ⟨grade, totalScore, maxScore⟩

/-- `GRADE_ORDER` from scoring.ts. -/
def GRADE_ORDER : List Grade := [.Ap, .A, .B, .C, .D, .E, .F]

/-- `gradeIndex` from scoring.ts: `GRADE_ORDER.indexOf(g)`. -/
def gradeIndex (g : Grade) : Nat :=
  GRADE_ORDER.indexOf g

/-- `meetsMinGrade` from scoring.ts. -/
def meetsMinGrade (actual minimum : Grade) : Bool :=
  gradeIndex actual ≤ gradeIndex minimum

/-- `checkXFrameOptions` from checks/x-frame.ts. -/
def checkXFrameOptions (headers : Headers) : HeaderCheck :=
  match jsGet headers "x-frame-options" with
  | none =>
    { header := "X-Frame-Options", status := .missing, severity := .medium,
      value := none,
      message := "X-Frame-Options header is missing. Site may be vulnerable to clickjacking.",
      recommendation := some "X-Frame-Options: DENY", score := 0, maxScore := 5 }
  | some value =>
    let upper := jsTrim (jsToUpper value)
    if upper = "DENY" then
      { header := "X-Frame-Options", status := .pass, severity := .info,
        value := some value, message := "X-Frame-Options is set to DENY.",
        recommendation := none, score := 5, maxScore := 5 }
    else if upper = "SAMEORIGIN" then
      { header := "X-Frame-Options", status := .pass, severity := .info,
        value := some value, message := "X-Frame-Options is set to SAMEORIGIN.",
        recommendation := none, score := 5, maxScore := 5 }
    else if jsStartsWith upper "ALLOW-FROM" then
      { header := "X-Frame-Options", status := .warn, severity := .low,
        value := some value,
        message := "ALLOW-FROM is deprecated and not supported by modern browsers. Use CSP frame-ancestors instead.",
        recommendation := some "Content-Security-Policy: frame-ancestors 'self' https://trusted.example.com",
        score := 3, maxScore := 5 }
    else
      { header := "X-Frame-Options", status := .fail, severity := .medium,
        value := some value,
        message := s!"Invalid X-Frame-Options value: \"{value}\".",
        recommendation := some "X-Frame-Options: DENY", score := 1, maxScore := 5 }

/-- `checkXContentTypeOptions` from checks/misc.ts. -/
def checkXContentTypeOptions (headers : Headers) : HeaderCheck :=
  match jsGet headers "x-content-type-options" with
  | none =>
    { header := "X-Content-Type-Options", status := .missing, severity := .medium,
      value := none,
      message := "X-Content-Type-Options is missing. Browsers may MIME-sniff responses.",
      recommendation := some "X-Content-Type-Options: nosniff", score := 0, maxScore := 5 }
  | some value =>
    if jsToLower (jsTrim value) = "nosniff" then
      { header := "X-Content-Type-Options", status := .pass, severity := .info,
        value := some value, message := "X-Content-Type-Options is set to nosniff.",
        recommendation := none, score := 5, maxScore := 5 }
    else
      { header := "X-Content-Type-Options", status := .fail, severity := .medium,
        value := some value,
        message := s!"Invalid value: \"{value}\". Expected \"nosniff\".",
        recommendation := some "X-Content-Type-Options: nosniff", score := 1, maxScore := 5 }

/-- `checkXXSSProtection` from checks/misc.ts: absence is a pass. -/
def checkXXSSProtection (headers : Headers) : HeaderCheck :=
  match jsGet headers "x-xss-protection" with
  | none =>
    { header := "X-XSS-Protection", status := .pass, severity := .info,
      value := none,
      message := "X-XSS-Protection is absent — acceptable for modern browsers that deprecated this feature.",
      recommendation := none, score := 5, maxScore := 5 }
  | some value =>
    let v := jsTrim value
    if v = "0" then
      { header := "X-XSS-Protection", status := .pass, severity := .info,
        value := some value,
        message := "X-XSS-Protection disabled (recommended — feature is deprecated and can introduce vulnerabilities).",
        recommendation := none, score := 5, maxScore := 5 }
    else if v = "1; mode=block" then
      { header := "X-XSS-Protection", status := .warn, severity := .low,
        value := some value,
        message := "X-XSS-Protection is enabled. This feature is deprecated and can create XSS vulnerabilities in older browsers.",
        recommendation := some "X-XSS-Protection: 0 (disable the deprecated feature; rely on CSP instead)",
        score := 3, maxScore := 5 }
    else if v = "1" then
      { header := "X-XSS-Protection", status := .warn, severity := .low,
        value := some value,
        message := "X-XSS-Protection: 1 without mode=block can enable XSS attacks via selective filtering.",
        recommendation := some "X-XSS-Protection: 0 (disable the deprecated feature; rely on CSP instead)",
        score := 2, maxScore := 5 }
    else
      { header := "X-XSS-Protection", status := .warn, severity := .low,
        value := some value,
        message := s!"Unusual X-XSS-Protection value: \"{value}\". Consider disabling it.",
        recommendation := some "X-XSS-Protection: 0", score := 2, maxScore := 5 }

/-- `checkDNSPrefetchControl` from checks/dns-prefetch.ts: absence is a
warn with score 1 of 3. -/
def checkDNSPrefetchControl (headers : Headers) : HeaderCheck :=
  match jsGet headers "x-dns-prefetch-control" with
  | none =>
    { header := "X-DNS-Prefetch-Control", status := .warn, severity := .low,
      value := none,
      message := "X-DNS-Prefetch-Control header is missing. DNS prefetching may leak visited links.",
      recommendation := some "X-DNS-Prefetch-Control: off",
      detail := some "DNS prefetching can leak information about which links a user is viewing. Setting this to \"off\" prevents browsers from pre-resolving external hostnames.",
      score := 1, maxScore := 3 }
  | some value =>
    let v := jsToLower (jsTrim value)
    if v = "off" then
      { header := "X-DNS-Prefetch-Control", status := .pass, severity := .info,
        value := some value,
        message := "X-DNS-Prefetch-Control is set to off (recommended for privacy).",
        recommendation := none,
        detail := some "DNS prefetching is disabled, preventing information leakage.",
        score := 3, maxScore := 3 }
    else if v = "on" then
      { header := "X-DNS-Prefetch-Control", status := .warn, severity := .low,
        value := some value,
        message := "X-DNS-Prefetch-Control is \"on\" — DNS prefetching may leak visited links.",
        recommendation := some "X-DNS-Prefetch-Control: off",
        detail := some "DNS prefetching is explicitly enabled. This improves performance but can leak information about page content.",
        score := 1, maxScore := 3 }
    else
      { header := "X-DNS-Prefetch-Control", status := .fail, severity := .low,
        value := some value,
        message := s!"Invalid X-DNS-Prefetch-Control value: \"{value}\". Expected \"off\" or \"on\".",
        recommendation := some "X-DNS-Prefetch-Control: off", score := 0, maxScore := 3 }

/-- `checkCOOP` from checks/coop.ts. -/
def checkCOOP (headers : Headers) : HeaderCheck :=
  match jsGet headers "cross-origin-opener-policy" with
  | none =>
    { header := "Cross-Origin-Opener-Policy", status := .missing, severity := .low,
      value := none, message := "Cross-Origin-Opener-Policy header is missing.",
      recommendation := some "Cross-Origin-Opener-Policy: same-origin",
      score := 0, maxScore := 5 }
  | some value =>
    let v := jsToLower (jsTrim value)
    if v = "same-origin" then
      { header := "Cross-Origin-Opener-Policy", status := .pass, severity := .info,
        value := some value, message := "COOP set to same-origin (most secure).",
        recommendation := none, score := 5, maxScore := 5 }
    else if v = "same-origin-allow-popups" then
      { header := "Cross-Origin-Opener-Policy", status := .pass, severity := .info,
        value := some value, message := "COOP set to same-origin-allow-popups.",
        recommendation := none, score := 4, maxScore := 5 }
    else if v = "unsafe-none" then
      { header := "Cross-Origin-Opener-Policy", status := .warn, severity := .low,
        value := some value, message := "COOP set to unsafe-none — no isolation.",
        recommendation := some "Cross-Origin-Opener-Policy: same-origin",
        score := 2, maxScore := 5 }
    else
      { header := "Cross-Origin-Opener-Policy", status := .fail, severity := .low,
        value := some value,
        message := s!"Invalid COOP value: \"{value}\". Valid: same-origin, same-origin-allow-popups, unsafe-none",
        recommendation := some "Cross-Origin-Opener-Policy: same-origin",
        score := 1, maxScore := 5 }

/-- `checkCOEP` from the module concatenated into checks/permissions-policy.ts. -/
def checkCOEP (headers : Headers) : HeaderCheck :=
  match jsGet headers "cross-origin-embedder-policy" with
  | none =>
    { header := "Cross-Origin-Embedder-Policy", status := .missing, severity := .low,
      value := none, message := "Cross-Origin-Embedder-Policy header is missing.",
      recommendation := some "Cross-Origin-Embedder-Policy: require-corp",
      score := 0, maxScore := 5 }
  | some value =>
    let v := jsToLower (jsTrim value)
    if v = "require-corp" then
      { header := "Cross-Origin-Embedder-Policy", status := .pass, severity := .info,
        value := some value, message := "COEP set to require-corp (most secure).",
        recommendation := none, score := 5, maxScore := 5 }
    else if v = "credentialless" then
      { header := "Cross-Origin-Embedder-Policy", status := .pass, severity := .info,
        value := some value, message := "COEP set to credentialless.",
        recommendation := none, score := 4, maxScore := 5 }
    else if v = "unsafe-none" then
      { header := "Cross-Origin-Embedder-Policy", status := .warn, severity := .low,
        value := some value, message := "COEP set to unsafe-none — no isolation.",
        recommendation := some "Cross-Origin-Embedder-Policy: require-corp",
        score := 2, maxScore := 5 }
    else
      { header := "Cross-Origin-Embedder-Policy", status := .fail, severity := .low,
        value := some value, message := s!"Invalid COEP value: \"{value}\".",
        recommendation := some "Cross-Origin-Embedder-Policy: require-corp",
        score := 1, maxScore := 5 }

/-- `checkCORP` from checks/corp.ts. -/
def checkCORP (headers : Headers) : HeaderCheck :=
  match jsGet headers "cross-origin-resource-policy" with
  | none =>
    { header := "Cross-Origin-Resource-Policy", status := .missing, severity := .low,
      value := none, message := "Cross-Origin-Resource-Policy header is missing.",
      recommendation := some "Cross-Origin-Resource-Policy: same-origin",
      score := 0, maxScore := 5 }
  | some value =>
    let v := jsToLower (jsTrim value)
    if v = "same-origin" then
      { header := "Cross-Origin-Resource-Policy", status := .pass, severity := .info,
        value := some value, message := "CORP set to same-origin (most restrictive).",
        recommendation := none, score := 5, maxScore := 5 }
    else if v = "same-site" then
      { header := "Cross-Origin-Resource-Policy", status := .pass, severity := .info,
        value := some value, message := "CORP set to same-site.",
        recommendation := none, score := 4, maxScore := 5 }
    else if v = "cross-origin" then
      { header := "Cross-Origin-Resource-Policy", status := .warn, severity := .low,
        value := some value, message := "CORP set to cross-origin — allows all origins.",
        recommendation := some "Cross-Origin-Resource-Policy: same-origin",
        score := 2, maxScore := 5 }
    else
      { header := "Cross-Origin-Resource-Policy", status := .fail, severity := .low,
        value := some value, message := s!"Invalid CORP value: \"{value}\".",
        recommendation := some "Cross-Origin-Resource-Policy: same-origin",
        score := 1, maxScore := 5 }

/-- `SECURE_VALUES` from checks/referrer.ts. -/
def SECURE_VALUES : List String :=
  ["no-referrer", "strict-origin", "strict-origin-when-cross-origin", "same-origin"]

/-- `WEAK_VALUES` from checks/referrer.ts. -/
def WEAK_VALUES : List String :=
  ["origin", "origin-when-cross-origin"]

/-- `UNSAFE_VALUES` from checks/referrer.ts. -/
def UNSAFE_VALUES : List String :=
  ["unsafe-url", "no-referrer-when-downgrade"]

/-- `checkReferrerPolicy` from checks/referrer.ts: comma-split, evaluate
the last token (`policies[policies.length - 1]`; the split is never
empty, so the default never fires). -/
def checkReferrerPolicy (headers : Headers) : HeaderCheck :=
  match jsGet headers "referrer-policy" with
  | none =>
    { header := "Referrer-Policy", status := .missing, severity := .medium,
      value := none, message := "Referrer-Policy header is missing.",
      recommendation := some "Referrer-Policy: strict-origin-when-cross-origin",
      score := 0, maxScore := 5 }
  | some value =>
    let policies := (splitChar ',' value).map (fun p => jsToLower (jsTrim p))
    let effective := policies.getLastD ""
    if SECURE_VALUES.contains effective then
      { header := "Referrer-Policy", status := .pass, severity := .info,
        value := some value,
        message := s!"Referrer-Policy is set to \"{effective}\" (secure).",
        recommendation := none, score := 5, maxScore := 5 }
    else if WEAK_VALUES.contains effective then
      { header := "Referrer-Policy", status := .warn, severity := .low,
        value := some value,
        message := s!"Referrer-Policy \"{effective}\" leaks origin info cross-origin.",
        recommendation := some "Referrer-Policy: strict-origin-when-cross-origin",
        score := 3, maxScore := 5 }
    else if UNSAFE_VALUES.contains effective then
      { header := "Referrer-Policy", status := .fail, severity := .medium,
        value := some value,
        message := s!"Referrer-Policy \"{effective}\" leaks full URL — unsafe.",
        recommendation := some "Referrer-Policy: strict-origin-when-cross-origin",
        score := 1, maxScore := 5 }
    else
      { header := "Referrer-Policy", status := .fail, severity := .medium,
        value := some value,
        message := s!"Unknown Referrer-Policy value: \"{effective}\".",
        recommendation := some "Referrer-Policy: strict-origin-when-cross-origin",
        score := 1, maxScore := 5 }

/-- `MIN_MAX_AGE` from checks/hsts.ts (one year in seconds). -/
def MIN_MAX_AGE : Nat := 31536000

/-- `checkHSTS` from checks/hsts.ts.  Issues and the running score are
threaded through pairs in the order the source pushes and adjusts
them. -/
def checkHSTS (headers : Headers) : HeaderCheck :=
  match jsGet headers "strict-transport-security" with
  | none =>
    { header := "Strict-Transport-Security", status := .missing, severity := .critical,
      value := none, message := "Strict-Transport-Security header is missing.",
      recommendation := some "Strict-Transport-Security: max-age=31536000; includeSubDomains; preload",
      detail := some "HSTS forces browsers to use HTTPS for all future requests, preventing SSL stripping and downgrade attacks. Without it, users are vulnerable to man-in-the-middle attacks.",
      score := 0, maxScore := 10 }
  | some value =>
    let maxAgeMatch := scanNumAfterCI "max-age=".toList value.toList
    let s1 : List String × Int :=
      match maxAgeMatch with
      | none => (["Missing max-age directive."], 6 - 3)
      | some maxAge =>
        if maxAge < MIN_MAX_AGE then
          ([s!"max-age={maxAge} is below recommended minimum of {MIN_MAX_AGE} (1 year)."], 6 - 2)
        else ([], 6 + 1)
    let hasIncludeSub := ciIncludes value "includesubdomains"
    let s2 : List String × Int :=
      if hasIncludeSub then (s1.1, s1.2 + 2)
      else (s1.1 ++ ["Missing includeSubDomains — subdomains are not protected by HSTS."], s1.2)
    let hasPreload := ciIncludes value "preload"
    let s3 : List String × Int :=
      if hasPreload then (s2.1, s2.2 + 1)
      else (s2.1 ++ ["Missing preload — consider adding to HSTS preload list for maximum protection."], s2.2)
    let score := max 0 (min 10 s3.2)
    if s3.1.isEmpty then
      { header := "Strict-Transport-Security", status := .pass, severity := .info,
        value := some value,
        message := "HSTS is well configured with includeSubDomains and preload.",
        recommendation := none,
        detail := some "HSTS is configured with max-age ≥ 1 year, includeSubDomains, and preload.",
        score := score, maxScore := 10 }
    else
      { header := "Strict-Transport-Security",
        status := if score ≥ 6 then .warn else .fail,
        severity := if score ≥ 6 then .low else .medium,
        value := some value,
        message := " ".intercalate s3.1,
        recommendation := some "Strict-Transport-Security: max-age=31536000; includeSubDomains; preload",
        detail := some "HSTS is present but could be strengthened. A max-age of at least 1 year with includeSubDomains and preload provides the best protection.",
        score := score, maxScore := 10 }

/-- `checkCacheControl` from checks/cache.ts. -/
def checkCacheControl (headers : Headers) : HeaderCheck :=
  match jsGet headers "cache-control" with
  | none =>
    { header := "Cache-Control", status := .missing, severity := .low,
      value := none,
      message := "Cache-Control header is missing. Sensitive responses may be cached.",
      recommendation := some "Cache-Control: no-store, no-cache, must-revalidate, private",
      detail := some "Without Cache-Control, browsers and proxies may cache sensitive data. This is especially important for authenticated pages.",
      score := 0, maxScore := 5 }
  | some value =>
    let lower := jsToLower value
    let s1 : List String × ℚ :=
      if jsIncludes lower "no-store" then ([], 2 + 2)
      else if jsIncludes lower "public" then
        (["'public' directive may cache sensitive data on shared caches."], 2 - 1)
      else ([], 2)
    let s2 : List String × ℚ :=
      if jsIncludes lower "private" then (s1.1, s1.2 + 1) else s1
    let s3 : List String × ℚ :=
      if jsIncludes lower "no-cache" then (s2.1, s2.2 + 1 / 2) else s2
    let s4 : List String × ℚ :=
      if jsIncludes lower "must-revalidate" then (s3.1, s3.2 + 1 / 2) else s3
    let s5 : List String × ℚ :=
      match scanNumAfterCI "s-maxage=".toList lower.toList with
      | some sMaxAge =>
        if 0 < sMaxAge ∧ jsIncludes lower "private" = false ∧ jsIncludes lower "no-store" = false then
          (s4.1 ++ [s!"s-maxage={sMaxAge} detected — shared caches will store this response. Ensure no sensitive data is cached."], s4.2)
        else s4
      | none => s4
    let score := max 0 (min 5 (jsRound s5.2))
    if s5.1.isEmpty ∧ score ≥ 4 then
      { header := "Cache-Control", status := .pass, severity := .info,
        value := some value,
        message := "Cache-Control is configured with security in mind.",
        recommendation := none,
        detail := some "Cache-Control restricts caching appropriately for sensitive content.",
        score := score, maxScore := 5 }
    else
      { header := "Cache-Control",
        status := if score ≥ 3 then .warn else .fail,
        severity := .low,
        value := some value,
        message := if s5.1.isEmpty then "Cache-Control could be more restrictive for sensitive content."
                   else " ".intercalate s5.1,
        recommendation := some "Cache-Control: no-store, no-cache, must-revalidate, private",
        detail := some "For authenticated pages, use \"no-store, private\" to prevent sensitive data caching.",
        score := score, maxScore := 5 }

/-- `sensitiveFeatures` from checks/permissions-policy.ts. -/
def sensitiveFeatures : List String :=
  ["camera", "microphone", "geolocation", "payment"]

/-- `checkPermissionsPolicy` from checks/permissions-policy.ts. -/
def checkPermissionsPolicy (headers : Headers) : HeaderCheck :=
  match jsGet headers "permissions-policy" with
  | none =>
    { header := "Permissions-Policy", status := .missing, severity := .medium,
      value := none, message := "Permissions-Policy header is missing.",
      recommendation := some "Permissions-Policy: camera=(), microphone=(), geolocation=(), payment=(), usb=(), magnetometer=(), gyroscope=(), accelerometer=()",
      score := 0, maxScore := 5 }
  | some value =>
    let policies := jsToLower value
    let acc : List String × ℚ := sensitiveFeatures.foldl
      (fun acc feature =>
        if jsIncludes policies (s!"{feature}=*") || jsIncludes policies (s!"{feature}=(\"*\")") then
          (acc.1 ++ [s!"{feature} is allowed for all origins — restrict it."], acc.2 - 1)
        else if jsIncludes policies (s!"{feature}=()") then
          (acc.1, acc.2 + 1 / 2)
        else acc)
      ([], 3)
    let score := max 0 (min 5 (jsRound acc.2))
    if acc.1.isEmpty then
      { header := "Permissions-Policy", status := .pass, severity := .info,
        value := some value, message := "Permissions-Policy is configured.",
        recommendation := none, score := score, maxScore := 5 }
    else
      { header := "Permissions-Policy", status := .warn, severity := .medium,
        value := some value, message := " ".intercalate acc.1,
        recommendation := some "Permissions-Policy: camera=(), microphone=(), geolocation=(), payment=()",
        score := score, maxScore := 5 }

/-- Cookie splitting from checks/set-cookie.ts:
`value.split(/,(?=\s*[^;]*=)/)`.  A comma separates two cookies exactly
when, after it, an `=` occurs before any `;` (the `\s*[^;]*=` lookahead,
whose `\s*` is subsumed by `[^;]*`). -/
def cookieSplitAux : List Char → List Char → List String
  | [], cur => [String.mk cur.reverse]
  | c :: rest, cur =>
    if c == ',' && ((rest.takeWhile (fun d => d != ';')).contains '=') then
      String.mk cur.reverse :: cookieSplitAux rest []
    else cookieSplitAux rest (c :: cur)

/-- Cookie-name extraction from checks/set-cookie.ts:
`cookie.match(/^([^=]+)=/)`, with `'unknown'` when the regex fails (the
cookie starts with `=` or has no `=`). -/
def cookieName (cookie : String) : String :=
  let pre := cookie.toList.takeWhile (fun c => c != '=')
  if pre.isEmpty || pre.length == cookie.toList.length then "unknown"
  else jsTrim (String.mk pre)

/-- `checkSetCookie` from checks/set-cookie.ts: absence is a pass; the
score starts at 3 once and is shared across all parsed cookies. -/
def checkSetCookie (headers : Headers) : HeaderCheck :=
  match jsGet headers "set-cookie" with
  | none =>
    { header := "Set-Cookie", status := .pass, severity := .info,
      value := none,
      message := "No Set-Cookie header present — no cookie security issues.",
      recommendation := none,
      detail := some "No cookies are being set in this response.",
      score := 5, maxScore := 5 }
  | some value =>
    let cookies := (cookieSplitAux value.toList []).map jsTrim
    let acc : List String × ℚ := cookies.foldl
      (fun acc cookie =>
        let name := cookieName cookie
        let parts := (splitChar ';' cookie).map (fun p => jsToLower (jsTrim p))
        let attrs := parts.drop 1
        let hasSecure := attrs.contains "secure"
        let hasHttpOnly := attrs.contains "httponly"
        let hasSameSite := attrs.any (fun a => jsStartsWith a "samesite")
        let hasSameSiteNone := attrs.any (fun a => removeWs a == "samesite=none")
        let hasPath := attrs.any (fun a => jsStartsWith (removeWs a) "path=/")
        let a1 : List String × ℚ :=
          if hasSecure then acc
          else (acc.1 ++ [s!"Cookie \"{name}\" is missing Secure flag — may be sent over HTTP."], acc.2 - 1)
        let a2 : List String × ℚ :=
          if hasHttpOnly then a1
          else (a1.1 ++ [s!"Cookie \"{name}\" is missing HttpOnly flag — accessible via JavaScript."], a1.2 - 1)
        let a3 : List String × ℚ :=
          if !hasSameSite then
            (a2.1 ++ [s!"Cookie \"{name}\" is missing SameSite attribute — vulnerable to CSRF."], a2.2 - 1 / 2)
          else if hasSameSiteNone && !hasSecure then
            (a2.1 ++ [s!"Cookie \"{name}\" has SameSite=None without Secure — will be rejected by browsers."], a2.2 - 1)
          else a2
        let a4 : List String × ℚ :=
          if jsStartsWith name "__Secure-" && !hasSecure then
            (a3.1 ++ [s!"Cookie \"{name}\" uses __Secure- prefix but is missing Secure flag."], a3.2)
          else a3
        if jsStartsWith name "__Host-" then
          let a5 : List String × ℚ :=
            if !hasSecure then
              (a4.1 ++ [s!"Cookie \"{name}\" uses __Host- prefix but is missing Secure flag."], a4.2)
            else a4
          if !hasPath then
            (a5.1 ++ [s!"Cookie \"{name}\" uses __Host- prefix but is missing Path=/."], a5.2)
          else a5
        else a4)
      ([], 3)
    let score := max 0 (min 5 (jsRound acc.2))
    if acc.1.isEmpty then
      { header := "Set-Cookie", status := .pass, severity := .info,
        value := some value,
        message := "All cookies have Secure, HttpOnly, and SameSite attributes.",
        recommendation := none,
        detail := some "Cookies are properly secured with all recommended attributes.",
        score := score, maxScore := 5 }
    else
      { header := "Set-Cookie",
        status := if score ≥ 2 then .warn else .fail,
        severity := if score ≥ 2 then .medium else .high,
        value := some value,
        message := " ".intercalate acc.1,
        recommendation := some "Set-Cookie: <name>=<value>; Secure; HttpOnly; SameSite=Lax; Path=/",
        detail := some "Cookies should always include Secure (HTTPS only), HttpOnly (no JS access), and SameSite (CSRF protection) attributes.",
        score := score, maxScore := 5 }

/-- Overwrite-by-key insertion preserving first-insertion order, as JS
object assignment `result[name] = …` behaves under `Object.entries`. -/
def upsert (k : String) (v : List String) : List (String × List String) → List (String × List String)
  | [] => [(k, v)]
  | (k', v') :: rest => if k' == k then (k, v) :: rest else (k', v') :: upsert k v rest

/-- `parseDirectives` from checks/csp.ts: split on `;`, whitespace-split
each segment; the first token (lower-cased) names the directive and the
rest are its source list; duplicates overwrite by key. -/
def parseDirectives (csp : String) : List (String × List String) :=
  (splitChar ';' csp).foldl
    (fun acc part =>
      match wsTokens part with
      | [] => acc
      | name :: vals => upsert (jsToLower name) vals acc)
    []

/-- `buildRecommendation` from checks/csp.ts. -/
def buildRecommendation (directives : List (String × List String)) (issues : List String) : String :=
  let p1 : List String :=
    if issues.any (fun i => jsIncludes i "unsafe-inline") then
      ["Remove 'unsafe-inline' and use nonce-based or hash-based CSP instead."]
    else []
  let p2 :=
    if issues.any (fun i => jsIncludes i "unsafe-eval") then
      p1 ++ ["Remove 'unsafe-eval'. Refactor code to avoid eval()."]
    else p1
  let p3 :=
    if (List.lookup "default-src" directives).isNone then p2 ++ ["Add: default-src 'self';"] else p2
  let p4 :=
    if (List.lookup "frame-ancestors" directives).isNone then p3 ++ ["Add: frame-ancestors 'none';"] else p3
  let p5 :=
    if (List.lookup "base-uri" directives).isNone then p4 ++ ["Add: base-uri 'self';"] else p4
  let p6 :=
    if (List.lookup "form-action" directives).isNone then p5 ++ ["Add: form-action 'self';"] else p5
  let p7 :=
    if (List.lookup "object-src" directives).isNone then p6 ++ ["Add: object-src 'none';"] else p6
  let p8 := p7 ++ ["Recommended: Content-Security-Policy: default-src 'self'; script-src 'self'; style-src 'self'; img-src 'self'; frame-ancestors 'none'; base-uri 'self'; form-action 'self'; object-src 'none'"]
  "\n".intercalate p8

/-- `checkCSP` from checks/csp.ts (the richer variant cited by the
claims): base 8 for presence, directive penalties, report bonus, clamp
to [0, 15]. -/
def checkCSP (headers : Headers) : HeaderCheck :=
  match jsGet headers "content-security-policy" with
  | none =>
    { header := "Content-Security-Policy", status := .missing, severity := .critical,
      value := none, message := "Content-Security-Policy header is missing.",
      recommendation := some "Content-Security-Policy: default-src 'self'; script-src 'self'; style-src 'self'; img-src 'self'; font-src 'self'; connect-src 'self'; frame-ancestors 'none'; base-uri 'self'; form-action 'self'; object-src 'none'",
      detail := some "CSP is the most important security header. It prevents XSS, clickjacking, and data injection attacks by controlling which resources the browser is allowed to load.",
      score := 0, maxScore := 15 }
  | some value =>
    let directives := parseDirectives value
    let a1 : List String × Int :=
      if (List.lookup "default-src" directives).isNone then
        (["Missing 'default-src' directive."], 8 - 2)
      else ([], 8)
    let a2 := directives.foldl
      (fun acc p =>
        let dir := p.1
        let acc' : List String × Int :=
          if p.2.contains "'unsafe-inline'" then
            if dir == "script-src" || dir == "default-src" then
              (acc.1 ++ [s!"'unsafe-inline' found in {dir} — weakens CSP significantly."], acc.2 - 3)
            else
              (acc.1 ++ [s!"'unsafe-inline' found in {dir} — consider removing if possible."], acc.2 - 1)
          else acc
        if p.2.contains "'unsafe-eval'" then
          (acc'.1 ++ [s!"'unsafe-eval' found in {dir} — allows arbitrary code execution."], acc'.2 - 3)
        else acc')
      a1
    let a3 := directives.foldl
      (fun acc p =>
        let dir := p.1
        if p.2.contains "*" then
          (acc.1 ++ [s!"Wildcard source '*' in {dir} — too permissive."], acc.2 - 2)
        else acc)
      a2
    let a4 : List String × Int :=
      if (List.lookup "frame-ancestors" directives).isNone then
        (a3.1 ++ ["Missing 'frame-ancestors' — consider adding frame-ancestors 'none' or 'self'."], a3.2 - 1)
      else a3
    let a5 : List String × Int :=
      if (List.lookup "base-uri" directives).isNone then
        (a4.1 ++ ["Missing 'base-uri' — add base-uri 'self' or 'none' to prevent base tag injection."], a4.2 - 1)
      else a4
    let a6 : List String × Int :=
      if (List.lookup "form-action" directives).isNone then
        (a5.1 ++ ["Missing 'form-action' — add form-action 'self' to restrict form submission targets."], a5.2 - 1)
      else a5
    let a7 : List String × Int :=
      if (List.lookup "object-src" directives).isNone then
        (a6.1 ++ ["Missing 'object-src' — add object-src 'none' to prevent plugin-based attacks."], a6.2 - 1)
      else a6
    let scriptSrc :=
      match List.lookup "script-src" directives with
      | some l => l
      | none => (List.lookup "default-src" directives).getD []
    let hasNonce := scriptSrc.any (fun v => jsStartsWith v "'nonce-")
    let hasHash := scriptSrc.any
      (fun v => jsStartsWith v "'sha256-" || jsStartsWith v "'sha384-" || jsStartsWith v "'sha512-")
    let a8 : List String × Int :=
      if !hasNonce && !hasHash && decide (0 < scriptSrc.length) && !(scriptSrc.contains "'none'") then
        (a7.1 ++ ["Consider using nonce-based or hash-based CSP for script-src for stronger protection."], a7.2)
      else a7
    let a9 : List String × Int :=
      if (List.lookup "report-uri" directives).isSome || (List.lookup "report-to" directives).isSome then
        (a8.1, a8.2 + 2)
      else a8
    let score := max 0 (min 15 a9.2)
    if a9.1.isEmpty then
      { header := "Content-Security-Policy", status := .pass, severity := .info,
        value := some value,
        message := "Content-Security-Policy is well configured.",
        recommendation := none,
        detail := some "CSP includes all recommended directives with restrictive values.",
        score := score, maxScore := 15 }
    else
      { header := "Content-Security-Policy",
        status := if score ≥ 7 then .warn else .fail,
        severity := if score ≥ 7 then .medium else .high,
        value := some value,
        message := " ".intercalate a9.1,
        recommendation := some (buildRecommendation directives a9.1),
        detail := some "CSP is present but has configuration issues that reduce its effectiveness.",
        score := score, maxScore := 15 }

/-- `ALL_CHECKS` from index.ts: the fixed ordered catalog of 13
checkers. -/
def ALL_CHECKS : List (Headers → HeaderCheck) :=
  [checkCSP, checkHSTS, checkXFrameOptions, checkXContentTypeOptions,
   checkPermissionsPolicy, checkCOOP, checkCOEP, checkCORP,
   checkReferrerPolicy, checkXXSSProtection, checkCacheControl,
   checkSetCookie, checkDNSPrefetchControl]

/-- The lower-cased header-map key each catalog entry reads, in the same
order as `ALL_CHECKS`. -/
def HEADER_KEYS : List String :=
  ["content-security-policy", "strict-transport-security", "x-frame-options",
   "x-content-type-options", "permissions-policy", "cross-origin-opener-policy",
   "cross-origin-embedder-policy", "cross-origin-resource-policy",
   "referrer-policy", "x-xss-protection", "cache-control", "set-cookie",
   "x-dns-prefetch-control"]

/-- Redirect hop, from types.ts. -/
structure RedirectHop where
  url : String
  statusCode : Int
  headers : Headers

/-- Scan record, from types.ts. -/
structure ScanResult where
  url : String
  finalUrl : String
  statusCode : Int
  redirectChain : List RedirectHop
  checks : List HeaderCheck
  grade : Grade
  totalScore : Int
  maxScore : Int
  timestamp : String

/-- `ALL_CHECKS.map(fn => fn(result.headers))` from `scanUrl` in
index.ts. -/
def scanChecks (headers : Headers) : List HeaderCheck :=
  ALL_CHECKS.map (fun fn => fn headers)

/-- Result assembly of `scanUrl` from index.ts, with the fetch
collaborator's outputs passed in as data. -/
def assembleScanResult (url finalUrl : String) (statusCode : Int)
    (redirectChain : List RedirectHop) (headers : Headers)
    (timestamp : String) : ScanResult :=
  let checks := scanChecks headers
  let g := calculateGrade checks
  { url := url, finalUrl := finalUrl, statusCode := statusCode,
    redirectChain := redirectChain, checks := checks, grade := g.grade,
    totalScore := g.totalScore, maxScore := g.maxScore, timestamp := timestamp }

/-- SARIF level, from the reporter's `severityToLevel` codomain. -/
inductive SarifLevel where
  | error
  | warning
  | note
  | toNone
deriving DecidableEq, Repr

/-- `severityToLevel` from reporter.ts (the `none` level is written
`toNone` here). -/
def severityToLevel : Status → SarifLevel
  | .fail => .error
  | .missing => .error
  | .warn => .warning
  | .pass => .toNone

/-- `ruleId` construction from reporter.ts:
`check.header.toLowerCase().replace(/[^a-z0-9]/g, '-')`. -/
def ruleIdOf (header : String) : String :=
  String.mk ((jsToLower header).toList.map
    (fun c => if c.isLower || c.isDigit then c else '-'))

/-- One entry of the SARIF `results` array, from reporter.ts (the single
location is flattened to its artifact URI). -/
structure SarifEntry where
  ruleId : String
  level : SarifLevel
  text : String
  uri : String
deriving DecidableEq, Repr

/-- The flattened `allChecks` list of `formatSARIF` from reporter.ts. -/
def flatChecks (results : List ScanResult) : List (HeaderCheck × String) :=
  results.foldl (fun acc r => acc ++ r.checks.map (fun c => (c, r.url))) []

/-- Message text of a SARIF entry, from reporter.ts. -/
def sarifText (c : HeaderCheck) : String :=
  match c.recommendation with
  | some rec => c.message ++ "\n\nRecommendation: " ++ rec
  | none => c.message

/-- The `results` array of `formatSARIF` from reporter.ts: non-`pass`
checks, mapped to rule id, level, message text and location URI.  The
surrounding JSON serialisation and tool/rule metadata are presentation
and are not modelled. -/
def sarifResults (results : List ScanResult) : List SarifEntry :=
  ((flatChecks results).filter (fun p => p.1.status != Status.pass)).map
    (fun p =>
      { ruleId := ruleIdOf p.1.header, level := severityToLevel p.1.status,
        text := sarifText p.1, uri := p.2 })

/-- Status and score each catalog entry actually produces when its
header-map key is absent, in `ALL_CHECKS` order. -/
def EXPECTED_ABSENT : List (Status × Int) :=
  [(.missing, 0), (.missing, 0), (.missing, 0), (.missing, 0), (.missing, 0),
   (.missing, 0), (.missing, 0), (.missing, 0), (.missing, 0), (.pass, 5),
   (.missing, 0), (.pass, 5), (.warn, 1)]

/-- Grade position in the order A+ < A < B < C < D < E < F (lower is
better), as the claim words it. -/
def gradeIndexSpec : Grade → Nat
  | .Ap => 0
  | .A => 1
  | .B => 2
  | .C => 3
  | .D => 4
  | .E => 5
  | .F => 6

/-- One test-harness check record, after `coreCheck`/`bonusCheck` in
tests/scoring.test.ts. -/
def testCheck (header : String) (present : Bool) : HeaderCheck :=
  { header := header, status := if present then .pass else .missing,
    severity := .info, value := if present then some "x" else none,
    message := "", recommendation := none,
    score := if present then 5 else 0, maxScore := 5 }

/-- `makeChecks(6, 3)` from tests/scoring.test.ts: all six core headers
present and passing, three of the four bonus headers present. -/
def makeChecks63 : List HeaderCheck :=
  [testCheck "Content-Security-Policy" true,
   testCheck "Strict-Transport-Security" true,
   testCheck "X-Frame-Options" true,
   testCheck "X-Content-Type-Options" true,
   testCheck "Referrer-Policy" true,
   testCheck "Permissions-Policy" true,
   testCheck "Cross-Origin-Opener-Policy" true,
   testCheck "Cross-Origin-Embedder-Policy" true,
   testCheck "Cross-Origin-Resource-Policy" true,
   testCheck "Cache-Control" false]

/-- A one-check list summing to 5 of 10. -/
def gradeSumChecksA : List HeaderCheck :=
  [{ header := "Content-Security-Policy", status := .pass, severity := .info,
     value := some "x", message := "", recommendation := none,
     score := 5, maxScore := 10 }]

/-- A two-check list with different headers and statuses, also summing
to 5 of 10. -/
def gradeSumChecksB : List HeaderCheck :=
  [{ header := "Strict-Transport-Security", status := .fail, severity := .medium,
     value := some "y", message := "m", recommendation := none,
     score := 2, maxScore := 4 },
   { header := "Cache-Control", status := .warn, severity := .low,
     value := none, message := "n", recommendation := none,
     score := 3, maxScore := 6 }]

/-- The token a Referrer-Policy value is judged by, as the claim words
it: split on commas, trim and lower-case, take the last token. -/
def lastPolicyToken (v : String) : String :=
  ((splitChar ',' v).map (fun p => jsToLower (jsTrim p))).getLastD ""

/-- Raw HSTS score before clamping, as the claim words it: base 6, −3
when no max-age=digits is captured, else −2 below one year and +1 at or
above, +2 for includeSubDomains, +1 for preload. -/
def hstsSpecRaw (v : String) : Int :=
  6 + (match scanNumAfterCI "max-age=".toList v.toList with
       | none => -3
       | some n => if n < 31536000 then -2 else 1)
    + (if ciIncludes v "includesubdomains" then 2 else 0)
    + (if ciIncludes v "preload" then 1 else 0)

/-- Zero-issue condition for HSTS, as the claim words it. -/
def hstsSpecOk (v : String) : Bool :=
  (match scanNumAfterCI "max-age=".toList v.toList with
   | none => false
   | some n => decide (31536000 ≤ n))
  && ciIncludes v "includesubdomains" && ciIncludes v "preload"

/-- SARIF level per status, as the claim words it: error for fail and
missing, warning for warn; pass is excluded from the results. -/
def sarifLevelSpec : Status → SarifLevel
  | .fail => .error
  | .missing => .error
  | .warn => .warning
  | .pass => .toNone

/-- A scan record holding one passing and one missing check, as in the
claim's example. -/
def sarifExampleScan : ScanResult :=
  { url := "https://example.com", finalUrl := "https://example.com",
    statusCode := 200, redirectChain := [],
    checks :=
      [{ header := "X-Content-Type-Options", status := .pass, severity := .info,
         value := some "nosniff", message := "X-Content-Type-Options is set to nosniff.",
         recommendation := none, score := 5, maxScore := 5 },
       { header := "Content-Security-Policy", status := .missing, severity := .critical,
         value := none, message := "Content-Security-Policy header is missing.",
         recommendation := none, score := 0, maxScore := 15 }],
    grade := .F, totalScore := 5, maxScore := 20,
    timestamp := "2024-01-01T00:00:00Z" }

section CheckerLemmas

variable (hs : Headers)

lemma checkCSP_maxScore : (checkCSP hs).maxScore = 15 := by
  unfold checkCSP
  cases jsGet hs "content-security-policy"
  · rfl
  · dsimp only
    rw [apply_ite (fun r : HeaderCheck => r.maxScore)]
    simp

lemma checkHSTS_maxScore : (checkHSTS hs).maxScore = 10 := by
  unfold checkHSTS
  cases jsGet hs "strict-transport-security"
  · rfl
  · dsimp only
    rw [apply_ite (fun r : HeaderCheck => r.maxScore)]
    simp

lemma checkCacheControl_maxScore : (checkCacheControl hs).maxScore = 5 := by
  unfold checkCacheControl
  cases jsGet hs "cache-control"
  · rfl
  · dsimp only
    rw [apply_ite (fun r : HeaderCheck => r.maxScore)]
    simp

lemma checkPermissionsPolicy_maxScore : (checkPermissionsPolicy hs).maxScore = 5 := by
  unfold checkPermissionsPolicy
  cases jsGet hs "permissions-policy"
  · rfl
  · dsimp only
    rw [apply_ite (fun r : HeaderCheck => r.maxScore)]
    simp

lemma checkSetCookie_maxScore : (checkSetCookie hs).maxScore = 5 := by
  unfold checkSetCookie
  cases jsGet hs "set-cookie"
  · rfl
  · dsimp only
    rw [apply_ite (fun r : HeaderCheck => r.maxScore)]
    simp

lemma checkXFrameOptions_maxScore : (checkXFrameOptions hs).maxScore = 5 := by
  unfold checkXFrameOptions
  cases jsGet hs "x-frame-options" <;> (try dsimp only) <;> (repeat' split) <;> rfl

lemma checkXContentTypeOptions_maxScore : (checkXContentTypeOptions hs).maxScore = 5 := by
  unfold checkXContentTypeOptions
  cases jsGet hs "x-content-type-options" <;> (try dsimp only) <;> (repeat' split) <;> rfl

lemma checkXXSSProtection_maxScore : (checkXXSSProtection hs).maxScore = 5 := by
  unfold checkXXSSProtection
  cases jsGet hs "x-xss-protection" <;> (try dsimp only) <;> (repeat' split) <;> rfl

lemma checkCOOP_maxScore : (checkCOOP hs).maxScore = 5 := by
  unfold checkCOOP
  cases jsGet hs "cross-origin-opener-policy" <;> (try dsimp only) <;> (repeat' split) <;> rfl

lemma checkCOEP_maxScore : (checkCOEP hs).maxScore = 5 := by
  unfold checkCOEP
  cases jsGet hs "cross-origin-embedder-policy" <;> (try dsimp only) <;> (repeat' split) <;> rfl

lemma checkCORP_maxScore : (checkCORP hs).maxScore = 5 := by
  unfold checkCORP
  cases jsGet hs "cross-origin-resource-policy" <;> (try dsimp only) <;> (repeat' split) <;> rfl

lemma checkReferrerPolicy_maxScore : (checkReferrerPolicy hs).maxScore = 5 := by
  unfold checkReferrerPolicy
  cases jsGet hs "referrer-policy" <;> (try dsimp only) <;> (repeat' split) <;> rfl

lemma checkDNSPrefetchControl_maxScore : (checkDNSPrefetchControl hs).maxScore = 3 := by
  unfold checkDNSPrefetchControl
  cases jsGet hs "x-dns-prefetch-control" <;> (try dsimp only) <;> (repeat' split) <;> rfl

lemma checkCSP_bounds :
    0 ≤ (checkCSP hs).score ∧ (checkCSP hs).score ≤ (checkCSP hs).maxScore := by
  unfold checkCSP
  cases jsGet hs "content-security-policy"
  · dsimp only; omega
  · dsimp only
    rw [apply_ite (fun r : HeaderCheck => r.score), apply_ite (fun r : HeaderCheck => r.maxScore)]
    dsimp only
    rw [ite_self, ite_self]
    omega

lemma checkHSTS_bounds :
    0 ≤ (checkHSTS hs).score ∧ (checkHSTS hs).score ≤ (checkHSTS hs).maxScore := by
  unfold checkHSTS
  cases jsGet hs "strict-transport-security"
  · dsimp only; omega
  · dsimp only
    rw [apply_ite (fun r : HeaderCheck => r.score), apply_ite (fun r : HeaderCheck => r.maxScore)]
    dsimp only
    rw [ite_self, ite_self]
    omega

lemma checkCacheControl_bounds :
    0 ≤ (checkCacheControl hs).score ∧ (checkCacheControl hs).score ≤ (checkCacheControl hs).maxScore := by
  unfold checkCacheControl
  cases jsGet hs "cache-control"
  · dsimp only; omega
  · dsimp only
    rw [apply_ite (fun r : HeaderCheck => r.score), apply_ite (fun r : HeaderCheck => r.maxScore)]
    dsimp only
    rw [ite_self, ite_self]
    omega

lemma checkPermissionsPolicy_bounds :
    0 ≤ (checkPermissionsPolicy hs).score ∧ (checkPermissionsPolicy hs).score ≤ (checkPermissionsPolicy hs).maxScore := by
  unfold checkPermissionsPolicy
  cases jsGet hs "permissions-policy"
  · dsimp only; omega
  · dsimp only
    rw [apply_ite (fun r : HeaderCheck => r.score), apply_ite (fun r : HeaderCheck => r.maxScore)]
    dsimp only
    rw [ite_self, ite_self]
    omega

lemma checkSetCookie_bounds :
    0 ≤ (checkSetCookie hs).score ∧ (checkSetCookie hs).score ≤ (checkSetCookie hs).maxScore := by
  unfold checkSetCookie
  cases jsGet hs "set-cookie"
  · dsimp only; omega
  · dsimp only
    rw [apply_ite (fun r : HeaderCheck => r.score), apply_ite (fun r : HeaderCheck => r.maxScore)]
    dsimp only
    rw [ite_self, ite_self]
    omega

lemma checkXFrameOptions_bounds :
    0 ≤ (checkXFrameOptions hs).score ∧ (checkXFrameOptions hs).score ≤ (checkXFrameOptions hs).maxScore := by
  unfold checkXFrameOptions
  cases jsGet hs "x-frame-options" <;> (try dsimp only) <;> (repeat' split) <;> (try dsimp only) <;> omega

lemma checkXContentTypeOptions_bounds :
    0 ≤ (checkXContentTypeOptions hs).score ∧ (checkXContentTypeOptions hs).score ≤ (checkXContentTypeOptions hs).maxScore := by
  unfold checkXContentTypeOptions
  cases jsGet hs "x-content-type-options" <;> (try dsimp only) <;> (repeat' split) <;> (try dsimp only) <;> omega

lemma checkXXSSProtection_bounds :
    0 ≤ (checkXXSSProtection hs).score ∧ (checkXXSSProtection hs).score ≤ (checkXXSSProtection hs).maxScore := by
  unfold checkXXSSProtection
  cases jsGet hs "x-xss-protection" <;> (try dsimp only) <;> (repeat' split) <;> (try dsimp only) <;> omega

lemma checkCOOP_bounds :
    0 ≤ (checkCOOP hs).score ∧ (checkCOOP hs).score ≤ (checkCOOP hs).maxScore := by
  unfold checkCOOP
  cases jsGet hs "cross-origin-opener-policy" <;> (try dsimp only) <;> (repeat' split) <;> (try dsimp only) <;> omega

lemma checkCOEP_bounds :
    0 ≤ (checkCOEP hs).score ∧ (checkCOEP hs).score ≤ (checkCOEP hs).maxScore := by
  unfold checkCOEP
  cases jsGet hs "cross-origin-embedder-policy" <;> (try dsimp only) <;> (repeat' split) <;> (try dsimp only) <;> omega

lemma checkCORP_bounds :
    0 ≤ (checkCORP hs).score ∧ (checkCORP hs).score ≤ (checkCORP hs).maxScore := by
  unfold checkCORP
  cases jsGet hs "cross-origin-resource-policy" <;> (try dsimp only) <;> (repeat' split) <;> (try dsimp only) <;> omega

lemma checkReferrerPolicy_bounds :
    0 ≤ (checkReferrerPolicy hs).score ∧ (checkReferrerPolicy hs).score ≤ (checkReferrerPolicy hs).maxScore := by
  unfold checkReferrerPolicy
  cases jsGet hs "referrer-policy" <;> (try dsimp only) <;> (repeat' split) <;> (try dsimp only) <;> omega

lemma checkDNSPrefetchControl_bounds :
    0 ≤ (checkDNSPrefetchControl hs).score ∧ (checkDNSPrefetchControl hs).score ≤ (checkDNSPrefetchControl hs).maxScore := by
  unfold checkDNSPrefetchControl
  cases jsGet hs "x-dns-prefetch-control" <;> (try dsimp only) <;> (repeat' split) <;> (try dsimp only) <;> omega

lemma checkCSP_absent (h : List.lookup "content-security-policy" hs = none) :
    (checkCSP hs).status = Status.missing ∧ (checkCSP hs).score = 0 := by
  have hj : jsGet hs "content-security-policy" = none := by simp [jsGet, h]
  unfold checkCSP
  rw [hj]
  exact ⟨rfl, rfl⟩

lemma checkHSTS_absent (h : List.lookup "strict-transport-security" hs = none) :
    (checkHSTS hs).status = Status.missing ∧ (checkHSTS hs).score = 0 := by
  have hj : jsGet hs "strict-transport-security" = none := by simp [jsGet, h]
  unfold checkHSTS
  rw [hj]
  exact ⟨rfl, rfl⟩

lemma checkXFrameOptions_absent (h : List.lookup "x-frame-options" hs = none) :
    (checkXFrameOptions hs).status = Status.missing ∧ (checkXFrameOptions hs).score = 0 := by
  have hj : jsGet hs "x-frame-options" = none := by simp [jsGet, h]
  unfold checkXFrameOptions
  rw [hj]
  exact ⟨rfl, rfl⟩

lemma checkXContentTypeOptions_absent (h : List.lookup "x-content-type-options" hs = none) :
    (checkXContentTypeOptions hs).status = Status.missing ∧ (checkXContentTypeOptions hs).score = 0 := by
  have hj : jsGet hs "x-content-type-options" = none := by simp [jsGet, h]
  unfold checkXContentTypeOptions
  rw [hj]
  exact ⟨rfl, rfl⟩

lemma checkPermissionsPolicy_absent (h : List.lookup "permissions-policy" hs = none) :
    (checkPermissionsPolicy hs).status = Status.missing ∧ (checkPermissionsPolicy hs).score = 0 := by
  have hj : jsGet hs "permissions-policy" = none := by simp [jsGet, h]
  unfold checkPermissionsPolicy
  rw [hj]
  exact ⟨rfl, rfl⟩

lemma checkCOOP_absent (h : List.lookup "cross-origin-opener-policy" hs = none) :
    (checkCOOP hs).status = Status.missing ∧ (checkCOOP hs).score = 0 := by
  have hj : jsGet hs "cross-origin-opener-policy" = none := by simp [jsGet, h]
  unfold checkCOOP
  rw [hj]
  exact ⟨rfl, rfl⟩

lemma checkCOEP_absent (h : List.lookup "cross-origin-embedder-policy" hs = none) :
    (checkCOEP hs).status = Status.missing ∧ (checkCOEP hs).score = 0 := by
  have hj : jsGet hs "cross-origin-embedder-policy" = none := by simp [jsGet, h]
  unfold checkCOEP
  rw [hj]
  exact ⟨rfl, rfl⟩

lemma checkCORP_absent (h : List.lookup "cross-origin-resource-policy" hs = none) :
    (checkCORP hs).status = Status.missing ∧ (checkCORP hs).score = 0 := by
  have hj : jsGet hs "cross-origin-resource-policy" = none := by simp [jsGet, h]
  unfold checkCORP
  rw [hj]
  exact ⟨rfl, rfl⟩

lemma checkReferrerPolicy_absent (h : List.lookup "referrer-policy" hs = none) :
    (checkReferrerPolicy hs).status = Status.missing ∧ (checkReferrerPolicy hs).score = 0 := by
  have hj : jsGet hs "referrer-policy" = none := by simp [jsGet, h]
  unfold checkReferrerPolicy
  rw [hj]
  exact ⟨rfl, rfl⟩

lemma checkXXSSProtection_absent (h : List.lookup "x-xss-protection" hs = none) :
    (checkXXSSProtection hs).status = Status.pass ∧ (checkXXSSProtection hs).score = 5 := by
  have hj : jsGet hs "x-xss-protection" = none := by simp [jsGet, h]
  unfold checkXXSSProtection
  rw [hj]
  exact ⟨rfl, rfl⟩

lemma checkCacheControl_absent (h : List.lookup "cache-control" hs = none) :
    (checkCacheControl hs).status = Status.missing ∧ (checkCacheControl hs).score = 0 := by
  have hj : jsGet hs "cache-control" = none := by simp [jsGet, h]
  unfold checkCacheControl
  rw [hj]
  exact ⟨rfl, rfl⟩

lemma checkSetCookie_absent (h : List.lookup "set-cookie" hs = none) :
    (checkSetCookie hs).status = Status.pass ∧ (checkSetCookie hs).score = 5 := by
  have hj : jsGet hs "set-cookie" = none := by simp [jsGet, h]
  unfold checkSetCookie
  rw [hj]
  exact ⟨rfl, rfl⟩

lemma checkDNSPrefetchControl_absent (h : List.lookup "x-dns-prefetch-control" hs = none) :
    (checkDNSPrefetchControl hs).status = Status.warn ∧ (checkDNSPrefetchControl hs).score = 1 := by
  have hj : jsGet hs "x-dns-prefetch-control" = none := by simp [jsGet, h]
  unfold checkDNSPrefetchControl
  rw [hj]
  exact ⟨rfl, rfl⟩

end CheckerLemmas

lemma weak_not_secure {s : String} (hw : s ∈ ["origin", "origin-when-cross-origin"]) :
    ¬ (["no-referrer", "strict-origin", "strict-origin-when-cross-origin",
        "same-origin"].contains s = true) := by
  intro hc
  have hmem := List.mem_of_elem_eq_true hc
  simp only [List.mem_cons, List.not_mem_nil, or_false] at hw hmem
  rcases hw with h | h <;> subst h <;>
    rcases hmem with h' | h' | h' | h' <;> exact absurd h' (by decide)

/-- C1 (code evaluation at the failing input): on the 6-core-plus-3-bonus
check list that tests/scoring.test.ts builds with `makeChecks(6, 3)` and
expects to grade A+, the shipped `calculateGrade` computes 45/50 = 90%
and returns A: the code grades by score percentage, not by core-header
presence. -/
theorem calculateGrade_percentage_at_test_input :
    calculateGrade makeChecks63 = ⟨Grade.A, 45, 50⟩ ∧ Grade.A ≠ Grade.Ap := by
  constructor
  · have ht : totalScoreOf makeChecks63 = 45 := by decide
    have hm : maxScoreOf makeChecks63 = 50 := by decide
    simp only [calculateGrade, ht, hm]
    norm_num
  · decide

/-- C2 counterexample: when the content-security-policy key is present
with the empty-string value, checkCSP reports `missing` (the empty
string is falsy in the `if (!value)` presence test), contradicting the
claim that the status is not `missing`. -/
theorem checkCSP_empty_string_is_missing :
    (checkCSP [("content-security-policy", "")]).status = Status.missing := by
  rfl

/-- C2 (amended): when the content-security-policy key is present with
the empty-string value, checkCSP reports `missing` with score 0 (so in
particular the score is at most 8). -/
theorem checkCSP_empty_string_value :
    (checkCSP [("content-security-policy", "")]).status = Status.missing ∧
    (checkCSP [("content-security-policy", "")]).score = 0 ∧
    (checkCSP [("content-security-policy", "")]).score ≤ 8 :=
  ⟨rfl, rfl, by decide⟩

/-- C3 counterexample: on the empty header map, checkDNSPrefetchControl
reports `warn`, not `missing` and not `pass`, so the claimed two-entry
exception list is not exhaustive. -/
theorem checkDNSPrefetchControl_absent_not_missing :
    (checkDNSPrefetchControl []).status = Status.warn ∧
    (checkDNSPrefetchControl []).status ≠ Status.missing ∧
    (checkDNSPrefetchControl []).status ≠ Status.pass := by
  refine ⟨rfl, ?_, ?_⟩ <;> decide

/-- C3 (amended): if a checker's header key is absent from the map, the
checker reports `missing`, except X-XSS-Protection and Set-Cookie, which
report `pass` with score 5, and X-DNS-Prefetch-Control, which reports
`warn` with score 1; this is exhaustive over the 13-checker catalog. -/
theorem absent_key_behavior (hs : Headers) (i : Fin 13)
    (h : List.lookup (HEADER_KEYS.getD i.val "") hs = none) :
    ((ALL_CHECKS.getD i.val checkCSP) hs).status
        = (EXPECTED_ABSENT.getD i.val (Status.missing, 0)).1 ∧
    ((ALL_CHECKS.getD i.val checkCSP) hs).score
        = (EXPECTED_ABSENT.getD i.val (Status.missing, 0)).2 := by
  fin_cases i
  · exact checkCSP_absent hs h
  · exact checkHSTS_absent hs h
  · exact checkXFrameOptions_absent hs h
  · exact checkXContentTypeOptions_absent hs h
  · exact checkPermissionsPolicy_absent hs h
  · exact checkCOOP_absent hs h
  · exact checkCOEP_absent hs h
  · exact checkCORP_absent hs h
  · exact checkReferrerPolicy_absent hs h
  · exact checkXXSSProtection_absent hs h
  · exact checkCacheControl_absent hs h
  · exact checkSetCookie_absent hs h
  · exact checkDNSPrefetchControl_absent hs h

/-- C3 witness: on the empty header map, the 13th catalog entry
(X-DNS-Prefetch-Control) reports `warn` with score 1. -/
theorem absent_key_behavior_witness :
    List.lookup (HEADER_KEYS.getD 12 "") ([] : Headers) = none ∧
    ((ALL_CHECKS.getD 12 checkCSP) ([] : Headers)).status = Status.warn ∧
    ((ALL_CHECKS.getD 12 checkCSP) ([] : Headers)).score = 1 :=
  ⟨rfl, (absent_key_behavior [] ⟨12, by norm_num⟩ rfl).1,
    (absent_key_behavior [] ⟨12, by norm_num⟩ rfl).2⟩

/-- C4: a scan record's totalScore and maxScore are the sums of its
checks' score and maxScore, and maxScore is 78 for the fixed 13-check
catalog on every header map. -/
theorem scanResult_sums_and_maxScore_78 (url finalUrl : String) (sc : Int)
    (chain : List RedirectHop) (hs : Headers) (ts : String) :
    (assembleScanResult url finalUrl sc chain hs ts).totalScore
        = totalScoreOf (assembleScanResult url finalUrl sc chain hs ts).checks ∧
    (assembleScanResult url finalUrl sc chain hs ts).maxScore
        = maxScoreOf (assembleScanResult url finalUrl sc chain hs ts).checks ∧
    (assembleScanResult url finalUrl sc chain hs ts).maxScore = 78 := by
  refine ⟨rfl, rfl, ?_⟩
  show maxScoreOf (scanChecks hs) = 78
  unfold scanChecks ALL_CHECKS maxScoreOf
  simp only [List.map, List.foldl]
  rw [checkCSP_maxScore, checkHSTS_maxScore, checkXFrameOptions_maxScore,
      checkXContentTypeOptions_maxScore, checkPermissionsPolicy_maxScore,
      checkCOOP_maxScore, checkCOEP_maxScore, checkCORP_maxScore,
      checkReferrerPolicy_maxScore, checkXXSSProtection_maxScore,
      checkCacheControl_maxScore, checkSetCookie_maxScore,
      checkDNSPrefetchControl_maxScore]
  norm_num

/-- C5: every checker of the catalog, on every header map, yields an
integer score with 0 ≤ score ≤ maxScore (totality of the embedded
checkers covers the no-exception part). -/
theorem checker_scores_bounded (i : Fin 13) (hs : Headers) :
    0 ≤ ((ALL_CHECKS.getD i.val checkCSP) hs).score ∧
    ((ALL_CHECKS.getD i.val checkCSP) hs).score
        ≤ ((ALL_CHECKS.getD i.val checkCSP) hs).maxScore := by
  fin_cases i
  · exact checkCSP_bounds hs
  · exact checkHSTS_bounds hs
  · exact checkXFrameOptions_bounds hs
  · exact checkXContentTypeOptions_bounds hs
  · exact checkPermissionsPolicy_bounds hs
  · exact checkCOOP_bounds hs
  · exact checkCOEP_bounds hs
  · exact checkCORP_bounds hs
  · exact checkReferrerPolicy_bounds hs
  · exact checkXXSSProtection_bounds hs
  · exact checkCacheControl_bounds hs
  · exact checkSetCookie_bounds hs
  · exact checkDNSPrefetchControl_bounds hs

/-- C6: meetsMinGrade holds iff index(actual) ≤ index(minimum) in the
order A+ < A < B < C < D < E < F; in particular meetsMinGrade F C is
false, meetsMinGrade A F is true, and meetsMinGrade g g is true for
every grade. -/
theorem meetsMinGrade_index_spec :
    (∀ a m : Grade, meetsMinGrade a m = true ↔ gradeIndexSpec a ≤ gradeIndexSpec m) ∧
    meetsMinGrade .F .C = false ∧
    meetsMinGrade .A .F = true ∧
    (∀ g : Grade, meetsMinGrade g g = true) := by
  refine ⟨fun a m => ?_, by decide, by decide, fun g => ?_⟩
  · cases a <;> cases m <;> decide
  · cases g <;> decide

/-- C7: for every present Referrer-Policy value, only the last
comma-separated token (trimmed, lower-cased) is judged: secure tokens
pass with score 5, weak tokens warn with score 3, and every other token
(unsafe or unrecognized) fails with score 1; in particular the value
no-referrer, strict-origin-when-cross-origin passes. -/
theorem checkReferrerPolicy_last_token (hs : Headers) (v : String)
    (h : jsGet hs "referrer-policy" = some v) :
    (lastPolicyToken v
        ∈ ["no-referrer", "strict-origin", "strict-origin-when-cross-origin", "same-origin"] →
      (checkReferrerPolicy hs).status = Status.pass ∧ (checkReferrerPolicy hs).score = 5) ∧
    (lastPolicyToken v ∈ ["origin", "origin-when-cross-origin"] →
      (checkReferrerPolicy hs).status = Status.warn ∧ (checkReferrerPolicy hs).score = 3) ∧
    (lastPolicyToken v
        ∉ ["no-referrer", "strict-origin", "strict-origin-when-cross-origin", "same-origin"] →
      lastPolicyToken v ∉ ["origin", "origin-when-cross-origin"] →
      (checkReferrerPolicy hs).status = Status.fail ∧ (checkReferrerPolicy hs).score = 1) ∧
    (checkReferrerPolicy [("referrer-policy", "no-referrer, strict-origin-when-cross-origin")]).status
      = Status.pass := by
  refine ⟨fun h1 => ?_, fun h2 => ?_, fun h3 h4 => ?_, by decide⟩
  · unfold checkReferrerPolicy
    rw [h]
    dsimp only
    repeat' split
    all_goals first
      | exact ⟨rfl, rfl⟩
      | exact absurd (List.elem_eq_true_of_mem h1) (by assumption)
  · unfold checkReferrerPolicy
    rw [h]
    dsimp only
    repeat' split
    all_goals first
      | exact ⟨rfl, rfl⟩
      | exact absurd (by assumption) (weak_not_secure h2)
      | exact absurd (List.elem_eq_true_of_mem h2) (by assumption)
  · unfold checkReferrerPolicy
    rw [h]
    dsimp only
    repeat' split
    all_goals first
      | exact ⟨rfl, rfl⟩
      | exact absurd (by assumption) (fun hc => h3 (List.mem_of_elem_eq_true hc))
      | exact absurd (by assumption) (fun hc => h4 (List.mem_of_elem_eq_true hc))

/-- C7 witness: the theorem applied at the concrete value origin. -/
theorem checkReferrerPolicy_last_token_witness :
    (checkReferrerPolicy [("referrer-policy", "origin")]).status = Status.warn ∧
    (checkReferrerPolicy [("referrer-policy", "origin")]).score = 3 :=
  (checkReferrerPolicy_last_token [("referrer-policy", "origin")] "origin" rfl).2.1 (by decide)

/-- C8: for every present Strict-Transport-Security value, the score is
base 6 adjusted by the max-age capture (−3 absent, −2 below one year,
+1 at or above), +2 for includeSubDomains, +1 for preload, clamped to
[0, 10]; the verdict passes only with zero issues and otherwise warns at
score ≥ 6 and fails below; the full directive string passes with score
10 and max-age=86400 alone mentions below recommended. -/
theorem checkHSTS_rules (hs : Headers) (v : String)
    (h : jsGet hs "strict-transport-security" = some v) :
    (checkHSTS hs).score = max 0 (min 10 (hstsSpecRaw v)) ∧
    ((checkHSTS hs).status =
      if hstsSpecOk v then Status.pass
      else if max 0 (min 10 (hstsSpecRaw v)) ≥ 6 then Status.warn else Status.fail) ∧
    (checkHSTS [("strict-transport-security",
        "max-age=31536000; includeSubDomains; preload")]).status = Status.pass ∧
    (checkHSTS [("strict-transport-security",
        "max-age=31536000; includeSubDomains; preload")]).score = 10 ∧
    jsIncludes (checkHSTS [("strict-transport-security", "max-age=86400")]).message
      "below recommended" = true := by
  refine ⟨?_, ?_, by decide, by decide, by decide⟩
  · unfold checkHSTS hstsSpecRaw
    rw [h]
    dsimp only
    rw [apply_ite (fun r : HeaderCheck => r.score)]
    dsimp only
    rw [ite_self]
    rcases hma : scanNumAfterCI "max-age=".toList v.toList with _ | n
    · by_cases h2 : ciIncludes v "includesubdomains" = true <;>
        by_cases h3 : ciIncludes v "preload" = true <;>
        simp [h2, h3]
    · by_cases hn : n < 31536000
      · have hn2 : ¬ ((31536000:ℕ) ≤ n) := by omega
        by_cases h2 : ciIncludes v "includesubdomains" = true <;>
          by_cases h3 : ciIncludes v "preload" = true <;>
          simp [h2, h3, hn, hn2, MIN_MAX_AGE] <;> first | rfl | omega
      · have hn2 : (31536000:ℕ) ≤ n := by omega
        by_cases h2 : ciIncludes v "includesubdomains" = true <;>
          by_cases h3 : ciIncludes v "preload" = true <;>
          simp [h2, h3, hn, hn2, MIN_MAX_AGE] <;> first | rfl | omega
  · unfold checkHSTS hstsSpecOk hstsSpecRaw
    rw [h]
    dsimp only
    rw [apply_ite (fun r : HeaderCheck => r.status)]
    dsimp only
    rcases hma : scanNumAfterCI "max-age=".toList v.toList with _ | n
    · by_cases h2 : ciIncludes v "includesubdomains" = true <;>
        by_cases h3 : ciIncludes v "preload" = true <;>
        simp [h2, h3] <;> first | rfl | decide
    · by_cases hn : n < 31536000
      · have hn2 : ¬ ((31536000:ℕ) ≤ n) := by omega
        by_cases h2 : ciIncludes v "includesubdomains" = true <;>
          by_cases h3 : ciIncludes v "preload" = true <;>
          simp [h2, h3, hn, hn2, MIN_MAX_AGE] <;> first | rfl | decide
      · have hn2 : (31536000:ℕ) ≤ n := by omega
        by_cases h2 : ciIncludes v "includesubdomains" = true <;>
          by_cases h3 : ciIncludes v "preload" = true <;>
          simp [h2, h3, hn, hn2, MIN_MAX_AGE] <;> first | rfl | decide

/-- C8 witness: the theorem applied at the concrete header value
max-age=0. -/
theorem checkHSTS_rules_witness :
    (checkHSTS [("strict-transport-security", "max-age=0")]).score
      = max 0 (min 10 (hstsSpecRaw "max-age=0")) :=
  (checkHSTS_rules [("strict-transport-security", "max-age=0")] "max-age=0" rfl).1

/-- C9: the SARIF results array holds exactly the checks whose status is
not pass, with level error for fail and missing and warning for warn;
the one-pass-one-missing example yields exactly one entry, of level
error. -/
theorem sarif_results_nonpass_only :
    (∀ results : List ScanResult,
        sarifResults results
          = ((flatChecks results).filter (fun p => p.1.status != Status.pass)).map
              (fun p =>
                { ruleId := ruleIdOf p.1.header, level := sarifLevelSpec p.1.status,
                  text := sarifText p.1, uri := p.2 })) ∧
    severityToLevel Status.fail = SarifLevel.error ∧
    severityToLevel Status.missing = SarifLevel.error ∧
    severityToLevel Status.warn = SarifLevel.warning ∧
    (sarifResults [sarifExampleScan]).length = 1 ∧
    (sarifResults [sarifExampleScan]).map (fun e => e.level) = [SarifLevel.error] := by
  refine ⟨fun results => ?_, rfl, rfl, rfl, by decide, by decide⟩
  rfl

/-- C10: the letter grade computed by `calculateGrade` depends only on
the total-score and max-score sums of the check list, not on which
headers appear or on their status fields. -/
theorem calculateGrade_function_of_sums (cs1 cs2 : List HeaderCheck)
    (h1 : totalScoreOf cs1 = totalScoreOf cs2)
    (h2 : maxScoreOf cs1 = maxScoreOf cs2) :
    (calculateGrade cs1).grade = (calculateGrade cs2).grade := by
  simp only [calculateGrade, h1, h2]

/-- C10 witness: two concrete lists with equal sums but different
headers and statuses receive the same grade. -/
theorem calculateGrade_function_of_sums_witness :
    totalScoreOf gradeSumChecksA = totalScoreOf gradeSumChecksB ∧
    maxScoreOf gradeSumChecksA = maxScoreOf gradeSumChecksB ∧
    (calculateGrade gradeSumChecksA).grade = (calculateGrade gradeSumChecksB).grade :=
  ⟨by decide, by decide,
    calculateGrade_function_of_sums gradeSumChecksA gradeSumChecksB (by decide) (by decide)⟩

end HeaderVet
